import Mathlib

/-!
Verification of the AI research bot (`main.py`): a shallow embedding of its
action-decision loop, search/fetch pipeline, and report assembly, together
with theorems about the properties the specification states.

External collaborators (the Ollama text oracle via `ollama.chat`, the
`requests` HTTP layer, `trafilatura`/`BeautifulSoup` extraction,
`html.unescape`, Python's `json.loads`, and the reportlab render backend)
are modelled as abstract functions bundled in an `Env` record; every piece
of control flow and data shaping that lives in `main.py` itself is
translated directly from the source.
-/

/-! ## String helpers

Python string operations used by the source, re-implemented over `List Char`
so that every definition reduces inside the kernel. -/

/-- Python's `a or b` on strings: the empty string is falsy. -/
def pyOr (a b : String) : String := if a = "" then b else a

/-- ASCII lowering of one character, as in `str.lower` on ASCII text. -/
def lowerChar (c : Char) : Char :=
  if 'A' ≤ c ∧ c ≤ 'Z' then Char.ofNat (c.toNat + 32) else c

/-- Python `s.lower()` (modelled for ASCII letters). -/
def lowerStr (s : String) : String := ⟨s.toList.map lowerChar⟩

/-- Does the first list start with the second? -/
def leadsWith : List Char → List Char → Bool
  | _, [] => true
  | [], _ :: _ => false
  | a :: as, b :: bs => a == b && leadsWith as bs

/-- Does `s` contain `pat` as a contiguous sublist? -/
def hasSub : List Char → List Char → Bool
  | [], pat => pat.isEmpty
  | c :: cs, pat => leadsWith (c :: cs) pat || hasSub cs pat

/-- Python `pat in s.lower()`, the keyword test of `parse_json_safe`. -/
def pyContains (s pat : String) : Bool :=
  hasSub (s.toList.map lowerChar) pat.toList

/-- Python `s.startswith(pat)`. -/
def pyStartsWith (s pat : String) : Bool := leadsWith s.toList pat.toList

/-- Python `s[:n]` (slicing a `str` by characters). -/
def pyTake (s : String) (n : Nat) : String := ⟨s.toList.take n⟩

/-- Python `s.split("\n")`, over a character list. -/
def splitNl : List Char → List (List Char)
  | [] => [[]]
  | c :: cs =>
    if c = '\n' then [] :: splitNl cs
    else
      match splitNl cs with
      | t :: rest => (c :: t) :: rest
      | [] => [[c]]

/-- Python `s.split("\n")` on strings; `"".split("\n") = [""]`. -/
def pySplitNl (s : String) : List String := (splitNl s.toList).map (fun cs => ⟨cs⟩)

/-- Python `os.path.basename`: the segment after the last slash. -/
def baseName (s : String) : String :=
  ⟨(s.toList.reverse.takeWhile (fun c => c ≠ '/')).reverse⟩

/-! ## JSON values

The values Python's `json.loads` can produce.  Numeric literals are
modelled as integers; the real parser itself is external and appears as
the abstract `loads` field of `Env`. -/

/-- A Python value decoded from JSON text.  An `obj` represents a Python
dict as produced by `json.loads`, whose keys are unique (duplicate keys in
the source text are collapsed by the parser before the program sees them),
so association-list lookup is dict lookup. -/
inductive JVal where
  | null
  | bool (b : Bool)
  | num (n : Int)
  | str (s : String)
  | arr (xs : List JVal)
  | obj (fields : List (String × JVal))

/-! ## Data model -/

/-- A role-tagged oracle message, as in the `messages` lists of `main.py`. -/
structure Msg where
  role : String
  content : String
deriving DecidableEq

/-- One result record produced by `ddg_search`. -/
structure SearchResult where
  title : String
  url : String
  snippet : String
deriving DecidableEq

/-- One accumulated finding (`notes` entry) of `run_agent_stream`. -/
structure Note where
  title : String
  url : String
  summary : String
deriving DecidableEq

/-- An anchor element as seen by `ddg_search` after BeautifulSoup parsing:
its `href`, its stripped text, and the visible text of its parent block
(`none` when the anchor has no parent). -/
structure Anchor where
  href : String
  text : String
  parentText : Option String
deriving DecidableEq

/-- An identity profile: a (User-Agent, Accept-Language) pair. -/
structure HeaderProfile where
  userAgent : String
  acceptLanguage : String
deriving DecidableEq

/-- A reportlab story element built by `create_pdf`: a styled paragraph,
a spacer, or a page break. -/
inductive PdfBlock where
  | para (text : String) (style : String)
  | spacer (w h : Nat)
  | pageBreak
deriving DecidableEq

/-- Which of the two `create_pdf` call sites in `run_agent_stream` ran:
the explicit-finish path or the fallback (budget/abort/silence) path. -/
inductive PathKind where
  | finish
  | fallback
deriving DecidableEq

/-- Observation of one `create_pdf` invocation: the arguments it received,
the story it assembled, the returned value (`some path` on success, `none`
when the render backend raised) and whether it logged an error. -/
structure PdfCall where
  kind : PathKind
  path : String
  task : String
  summary : JVal
  notes : List Note
  story : List PdfBlock
  result : Option String
  logged : Bool

/-- One assignment to the process-wide `LAST_REPORT` pointer, recording the
value written and whether `LAST_REPORT_LOCK` was held. -/
structure LastUpdate where
  value : Option String
  underLock : Bool
deriving DecidableEq

/-- Accumulated observations of an in-flight run: queue events in emission
order, `ddg_search` invocations, `create_pdf` invocations, and
`LAST_REPORT` updates. -/
structure RunAcc where
  events : List String
  searchCalls : List (JVal × Nat)
  pdfCalls : List PdfCall
  lastUpdates : List LastUpdate

/-- The observable outcome of `run_agent_stream`: the final trace plus
`exn = some e` when an uncaught Python exception terminated the thread. -/
structure RunResult where
  events : List String
  searchCalls : List (JVal × Nat)
  pdfCalls : List PdfCall
  lastUpdates : List LastUpdate
  exn : Option String

/-- Close a trace with the given exception status. -/
def RunAcc.done (acc : RunAcc) (e : Option String) : RunResult :=
  ⟨acc.events, acc.searchCalls, acc.pdfCalls, acc.lastUpdates, e⟩

/-! ## External collaborators

The opaque backends of the program, modelled as abstract functions.  Each
field is the observable input/output behaviour of one external call made by
`main.py`; a concrete `Env` instantiates them for witness runs. -/

/-- The external world of one run.

* `chat` — the text returned by `ollama_chat` for a message history
  (already a plain string; the empty string signals oracle unavailability
  or failure, exactly the contract of `ollama_chat` in the source);
* `loads` — Python's `json.loads`: `some v` when the input parses, `none`
  when it raises;
* `searchAnchors` — the anchors BeautifulSoup finds in the response to the
  DuckDuckGo POST for a query, `none` when the request or `raise_for_status`
  raised;
* `attemptOutcome url i` — the body text of the `i`-th GET attempt on
  `url`, `none` when that attempt raised (transport error, HTTP error
  status or timeout);
* `extract` — `trafilatura.extract raw url`;
* `getText` — `BeautifulSoup(raw).get_text(separator="\n", strip=True)`;
* `unescape` — `html.unescape`;
* `pyStr` — Python `str()` on a non-string decoded value;
* `renderOk` — whether `doc.build` succeeds for a path and story;
* `ts` — the `now_ts()` timestamp string of this run. -/
structure Env where
  chat : List Msg → String
  loads : String → Option JVal
  searchAnchors : JVal → Option (List Anchor)
  attemptOutcome : String → Nat → Option String
  extract : String → String → Option String
  getText : String → String
  unescape : String → String
  pyStr : JVal → String
  renderOk : String → List PdfBlock → Bool
  ts : String

/-- Python `str(x)` as used in f-strings: identity on strings, the external
`str()` rendering otherwise. -/
def fstr (env : Env) : JVal → String
  | JVal.str s => s
  | j => env.pyStr j

/-- The source's `safe_text` applied to a decoded value: `html.unescape` of
the string, going through `str()` first for non-strings. -/
def safe_text (env : Env) : JVal → String
  | JVal.str s => env.unescape s
  | j => env.unescape (env.pyStr j)

/-! ## Configuration constants of `main.py` -/

/-- The report output directory. -/
def OUTPUT_DIR : String := "reports"

/-- The DuckDuckGo HTML endpoint. -/
def SEARCH_URL : String := "https://html.duckduckgo.com/html/"

/-- The fixed header rotation of `main.py`. -/
def COMMON_HEADERS : List HeaderProfile :=
  [⟨"Mozilla/5.0 (Windows NT 10.0; Win64; x64) AppleWebKit/537.36 (KHTML, like Gecko) Chrome/120 Safari/537.36",
    "en-US,en;q=0.9"⟩,
   ⟨"Mozilla/5.0 (X11; Linux x86_64) AppleWebKit/537.36 (KHTML, like Gecko) Chrome/120 Safari/537.36",
    "en-US,en;q=0.9"⟩,
   ⟨"Mozilla/5.0 (Macintosh; Intel Mac OS X 10_15_7) AppleWebKit/605.1.15 (KHTML, like Gecko) Version/14.0 Safari/605.1.15",
    "en-US,en;q=0.9"⟩]

/-! ## Oracle wrapper and action decoding -/

/-- The `ollama_chat` wrapper: the source normalises every backend response
to a plain string and returns `""` on unavailability or any exception, so
its observable behaviour is exactly `env.chat`. -/
def ollama_chat (env : Env) (messages : List Msg) : String := env.chat messages

/-- The source's `parse_json_safe`: strict `json.loads` first; on a parse
failure, keyword heuristics (`"search" in s.lower()` before
`"finish" in s.lower()`); otherwise the empty object (the Invalid
variant). -/
def parse_json_safe (loads : String → Option JVal) (s : String) : JVal :=
  match loads s with
  | some v => v
  | none =>
    if pyContains s "search" then
      JVal.obj [("action", JVal.str "search"), ("query", JVal.str s)]
    else if pyContains s "finish" then
      JVal.obj [("action", JVal.str "finish"), ("summary", JVal.str s)]
    else JVal.obj []

/-- Python `action.get("action", "")`: raises `AttributeError` unless the
value is a dict. -/
def pyGet (j : JVal) (key : String) (default : JVal) : Except String JVal :=
  match j with
  | JVal.obj fields => Except.ok ((fields.lookup key).getD default)
  | _ => Except.error "AttributeError"

/-- The dispatch line `act = action.get("action", "").lower()` of
`run_agent_stream`: fails with the Python exception when the decoded value
is not a dict or its action value is not a string. -/
def dispatchOf (j : JVal) : Except String String :=
  match pyGet j "action" (JVal.str "") with
  | Except.error e => Except.error e
  | Except.ok (JVal.str a) => Except.ok (lowerStr a)
  | Except.ok _ => Except.error "AttributeError"

/-- The fields of a decoded dict (the decoded value is always a dict at the
points where this is used, because dispatch succeeded on it). -/
def objFieldsD : JVal → List (String × JVal)
  | JVal.obj fields => fields
  | _ => []

/-! ## Web search (`ddg_search`) -/

/-- The result record `ddg_search` builds from one anchor:
`title = safe_text(a.get_text(strip=True) or href)`, `url = href`,
`snippet = safe_text(parent text or "")`. -/
def mkResult (env : Env) (a : Anchor) : SearchResult :=
  ⟨env.unescape (pyOr a.text a.href), a.href, env.unescape (a.parentText.getD "")⟩

/-- The anchor loop of `ddg_search`: append a result for each anchor whose
href starts with "http", and break once `len(results) >= max_results`
(the length test runs after every anchor, appended or not). -/
def ddg_collect (env : Env) (maxResults : Nat) : List Anchor → List SearchResult → List SearchResult
  | [], acc => acc
  | a :: rest, acc =>
    let acc := if pyStartsWith a.href "http" then acc ++ [mkResult env a] else acc
    if maxResults ≤ acc.length then acc else ddg_collect env maxResults rest acc

/-- The source's `ddg_search`: one POST with the query; on any request or
parse failure return the empty list, otherwise scan the anchors. -/
def ddg_search (env : Env) (query : JVal) (maxResults : Nat) : List SearchResult :=
  match env.searchAnchors query with
  | none => []
  | some anchors => ddg_collect env maxResults anchors []

/-! ## Resilient fetch (`fetch_page`) -/

/-- The result of `fetch_page`: the returned text together with the header
rotation indices used, one per attempt made, in order. -/
structure FetchOut where
  text : String
  headerIdx : List Nat
deriving DecidableEq

/-- The body of one successful attempt: `trafilatura.extract`, returned
when present and longer than 200 characters, else the raw-text fallback
`soup.get_text`. -/
def fetch_body (env : Env) (url body : String) : String :=
  match env.extract body url with
  | some text => if text ≠ "" ∧ 200 < text.length then text else env.getText body
  | none => env.getText body

/-- The attempt loop of `fetch_page`: attempt `i` uses header profile
`i % len(COMMON_HEADERS)`; any exception moves to the next attempt; when
the attempts are exhausted, return the empty string. -/
def fetch_go (env : Env) (url : String) : Nat → Nat → List Nat → FetchOut
  | 0, _, used => ⟨"", used⟩
  | remaining + 1, i, used =>
    let used := used ++ [i % COMMON_HEADERS.length]
    match env.attemptOutcome url i with
    | some body => ⟨fetch_body env url body, used⟩
    | none => fetch_go env url remaining (i + 1) used

/-- The source's `fetch_page url max_attempts`: `safe_text` the URL, then
run the attempt loop. -/
def fetch_page (env : Env) (url : String) (maxAttempts : Nat) : FetchOut :=
  fetch_go env (env.unescape url) maxAttempts 0 []

/-! ## Report assembly (`create_pdf`) -/

/-- The four story blocks of the section `create_pdf` emits for the note at
(zero-based) position `i`: heading `f"{i+1}. {title}"`, the URL line, a
spacer, and the `safe_text`-ed summary. -/
def noteSection (env : Env) : Nat × Note → List PdfBlock
  | (i, n) =>
    [PdfBlock.para (toString (i + 1) ++ ". " ++ n.title) "H2",
     PdfBlock.para ("URL: " ++ n.url) "Body",
     PdfBlock.spacer 1 6,
     PdfBlock.para (env.unescape n.summary) "Body"]

/-- What one `create_pdf` call produced: the assembled story, the returned
value, and whether the error path logged. -/
structure PdfOut where
  story : List PdfBlock
  result : Option String
  logged : Bool

/-- The source's `create_pdf path task summary notes`: `safe_text` the task
and summary, assemble the story (title, task heading, executive summary
with one paragraph per newline-delimited segment, then one page-broken
section per note in order), then build; any render-backend exception is
caught, logged, and turned into a `None` return. -/
def create_pdf (env : Env) (path task0 : String) (summary0 : JVal) (notes : List Note) : PdfOut :=
  let task := env.unescape task0
  let summary := safe_text env summary0
  let story : List PdfBlock :=
    [PdfBlock.para "AI Research Report" "Title", PdfBlock.spacer 1 12,
     PdfBlock.para task "H2", PdfBlock.spacer 1 12,
     PdfBlock.para "Executive Summary" "H2"]
    ++ (pySplitNl summary).flatMap (fun p => [PdfBlock.para p "Body", PdfBlock.spacer 1 6])
    ++ notes.enum.flatMap (fun p => PdfBlock.pageBreak :: noteSection env p)
  if env.renderOk path story then ⟨story, some path, false⟩ else ⟨story, none, true⟩

/-! ## The agent loop (`run_agent_stream`) -/

/-- The system prompt of `run_agent_stream`. -/
def systemPrompt : String :=
  "\nDu bist ein Research-Agent. Antworte IMMER im JSON-Format.\nAktionen:\n1. \x7b\"action\":\"search\",\"query\":\"...\"\x7d → wenn du mehr Infos brauchst, führe eine DuckDuckGo-Suche aus.\n2. \x7b\"action\":\"finish\",\"summary\":\"...\"\x7d → wenn du genug Infos hast.\n\nRegeln:\n- Plane mehrere Suchen falls nötig.\n- Nutze die Knowledge aus geladenen Seiten.\n- Schreibe niemals freien Text außerhalb von JSON.\n"

/-- The condensation instruction used for each fetched page. -/
def bulletPrompt : String := "Fasse prägnant in 5 Bulletpoints zusammen."

/-- The initial conversation history of a run. -/
def initMessages (task : String) : List Msg :=
  [⟨"system", systemPrompt⟩, ⟨"user", "Task: " ++ task⟩]

/-- The per-result loop of the search phase: emit a loading event, fetch
the page; on empty text append the snippet as the finding and note it,
otherwise condense (first 5000 characters) with a 500-character raw
fallback, append the finding, and note completion. -/
def processResults (env : Env) : List SearchResult → List Note → RunAcc → List Note × RunAcc
  | [], notes, acc => (notes, acc)
  | r :: rest, notes, acc =>
    let acc := { acc with
      events := acc.events ++ ["🌐 Lade Seite: " ++ r.title ++ " (" ++ r.url ++ ")"] }
    let text := (fetch_page env r.url 3).text
    if text = "" then
      processResults env rest (notes ++ [(⟨r.title, r.url, r.snippet⟩ : Note)])
        { acc with events := acc.events ++ ["ℹ️ Snippet verwendet für " ++ r.title] }
    else
      let summ := pyOr
        (ollama_chat env [(⟨"system", bulletPrompt⟩ : Msg), ⟨"user", pyTake text 5000⟩])
        (pyTake text 500)
      processResults env rest (notes ++ [(⟨r.title, r.url, summ⟩ : Note)])
        { acc with events := acc.events ++ ["✅ Zusammenfassung fertig: " ++ r.title] }

/-- The `create_pdf` invocation of the fallback tail: path
`reports/report_partial_{ts}.pdf`, summary
`final_summary or "Kein vollständiges Ergebnis."`. -/
def fallbackCall (env : Env) (task finalSummary : String) (notes : List Note) : PdfCall :=
  let path := OUTPUT_DIR ++ "/" ++ ("report_partial_" ++ env.ts ++ ".pdf")
  let summary := JVal.str (pyOr finalSummary "Kein vollständiges Ergebnis.")
  let out := create_pdf env path task summary notes
  ⟨PathKind.fallback, path, task, summary, notes, out.story, out.result, out.logged⟩

/-- The fallback tail of `run_agent_stream`: build the partial report
(`final_summary or "Kein vollständiges Ergebnis."`), update `LAST_REPORT`
under the lock unconditionally, and emit the partial-report event. -/
def runFallback (env : Env) (task finalSummary : String) (notes : List Note) (acc : RunAcc) :
    RunResult :=
  let c := fallbackCall env task finalSummary notes
  let u : LastUpdate := ⟨some c.path, true⟩
  let acc := { acc with
    pdfCalls := acc.pdfCalls ++ [c],
    lastUpdates := acc.lastUpdates ++ [u],
    events := acc.events ++ ["📄 Zwischenstand PDF: /download?file=" ++ baseName c.path] }
  acc.done none

/-- The `create_pdf` invocation of the finish branch: path
`reports/report_{ts}.pdf`, summary the decoded terminal summary. -/
def finishCall (env : Env) (task : String) (finalSummary : JVal) (notes : List Note) : PdfCall :=
  let path := OUTPUT_DIR ++ "/" ++ ("report_" ++ env.ts ++ ".pdf")
  let out := create_pdf env path task finalSummary notes
  ⟨PathKind.finish, path, task, finalSummary, notes, out.story, out.result, out.logged⟩

/-- The finish branch of `run_agent_stream`: record the terminal summary,
emit the completion event, build the report; only on success update
`LAST_REPORT` under the lock and emit the ready event, then return. -/
def runFinish (env : Env) (task : String) (finalSummary : JVal) (notes : List Note)
    (acc : RunAcc) : RunResult :=
  let acc := { acc with events := acc.events ++ ["🎉 Finale Zusammenfassung erstellt!"] }
  let c := finishCall env task finalSummary notes
  let acc := { acc with pdfCalls := acc.pdfCalls ++ [c] }
  match c.result with
  | some created =>
    let u : LastUpdate := ⟨some created, true⟩
    let acc := { acc with
      lastUpdates := acc.lastUpdates ++ [u],
      events := acc.events ++ ["📄 PDF bereit: /download?file=" ++ baseName created] }
    acc.done none
  | none => acc.done none

/-- The `for _ in range(20)` loop of `run_agent_stream`, with the remaining
iteration budget as fuel.  Oracle silence and an invalid action break to
the fallback; a decoded search runs the search phase and re-decides; a
decoded finish builds the final report and returns; an uncaught Python
exception at the dispatch line terminates the thread with no report. -/
def runLoop (env : Env) (task : String) (maxResults : Nat) :
    Nat → List Msg → List Note → RunAcc → RunResult
  | 0, _, notes, acc => runFallback env task "" notes acc
  | fuel + 1, messages, notes, acc =>
    let resp := ollama_chat env messages
    if resp = "" then
      runFallback env task "" notes
        { acc with events := acc.events ++ ["⚠️ Modell antwortet nicht."] }
    else
      let action := parse_json_safe env.loads resp
      match dispatchOf action with
      | Except.error e => acc.done (some e)
      | Except.ok act =>
        if act = "search" then
          let query := ((objFieldsD action).lookup "query").getD (JVal.str task)
          let acc := { acc with
            events := acc.events ++ ["🔎 Suche nach: " ++ fstr env query],
            searchCalls := acc.searchCalls ++ [(query, maxResults)] }
          let results := ddg_search env query maxResults
          let step := processResults env results notes acc
          runLoop env task maxResults fuel
            (messages ++ [⟨"user", "Neue Knowledge hinzugefügt."⟩]) step.1 step.2
        else if act = "finish" then
          runFinish env task (((objFieldsD action).lookup "summary").getD (JVal.str ""))
            notes acc
        else
          runFallback env task "" notes
            { acc with events := acc.events ++ ["⚠️ Ungültige Action."] }

/-- The source's `run_agent_stream task max_results q`: the full loop from
the initial history, with the iteration budget of 20. -/
def run_agent_stream (env : Env) (task : String) (maxResults : Nat) : RunResult :=
  runLoop env task maxResults 20 (initMessages task) [] ⟨[], [], [], []⟩

/-! ## Derived observations -/

/-- The finding the search phase produces for one search result: the
snippet when the fetch failed, otherwise the condensed (or raw-prefix)
summary. -/
def findingOf (env : Env) (r : SearchResult) : Note :=
  let text := (fetch_page env r.url 3).text
  if text = "" then ⟨r.title, r.url, r.snippet⟩
  else
    ⟨r.title, r.url,
     pyOr (ollama_chat env [⟨"system", bulletPrompt⟩, ⟨"user", pyTake text 5000⟩])
       (pyTake text 500)⟩

/-- The findings of each search phase of a run, one block per phase, in
phase order. -/
def phaseList (env : Env) (task : String) (maxResults : Nat) :
    Nat → List Msg → List (List Note)
  | 0, _ => []
  | fuel + 1, messages =>
    let resp := ollama_chat env messages
    if resp = "" then []
    else
      let action := parse_json_safe env.loads resp
      match dispatchOf action with
      | Except.error _ => []
      | Except.ok act =>
        if act = "search" then
          let query := ((objFieldsD action).lookup "query").getD (JVal.str task)
          (ddg_search env query maxResults).map (findingOf env)
            :: phaseList env task maxResults fuel
                 (messages ++ [⟨"user", "Neue Knowledge hinzugefügt."⟩])
        else []

/-- The `LAST_REPORT` updates a completed run performs, as a function of
its single `create_pdf` call: the finish path updates only on success, the
fallback path unconditionally; both hold the lock. -/
def updatesOf (c : PdfCall) : List LastUpdate :=
  match c.kind with
  | PathKind.fallback => [⟨some c.path, true⟩]
  | PathKind.finish =>
    match c.result with
    | some p => [⟨some p, true⟩]
    | none => []

/-- Right-to-left grouping of a story at its page breaks: the blocks before
the first break (the header) and the list of sections after each break. -/
def chunksAux : List PdfBlock → List PdfBlock × List (List PdfBlock)
  | [] => ([], [])
  | b :: rest =>
    let r := chunksAux rest
    match b with
    | PdfBlock.pageBreak => ([], r.1 :: r.2)
    | x => (x :: r.1, r.2)

/-- The page-broken sections of a story, in order, header discarded. -/
def sectionChunks (bs : List PdfBlock) : List (List PdfBlock) := (chunksAux bs).2


/-! ## Structural lemmas about report assembly -/

theorem chunksAux_cons_noBreak {b : PdfBlock} (hb : b ≠ PdfBlock.pageBreak)
    (l : List PdfBlock) :
    chunksAux (b :: l) = (b :: (chunksAux l).1, (chunksAux l).2) := by
  cases b with
  | para t s => rfl
  | spacer w h => rfl
  | pageBreak => exact absurd rfl hb

theorem chunksAux_append_noBreak (pre l : List PdfBlock)
    (h : ∀ b ∈ pre, b ≠ PdfBlock.pageBreak) :
    chunksAux (pre ++ l) = (pre ++ (chunksAux l).1, (chunksAux l).2) := by
  induction pre with
  | nil => simp
  | cons b bs ih =>
    simp only [List.cons_append]
    rw [chunksAux_cons_noBreak (h b (by simp)) (bs ++ l),
        ih (fun x hx => h x (by simp [hx]))]

theorem chunksAux_pageBreak (l : List PdfBlock) :
    chunksAux (PdfBlock.pageBreak :: l) = ([], (chunksAux l).1 :: (chunksAux l).2) := rfl

theorem noteSection_noBreak (env : Env) (p : Nat × Note) :
    ∀ b ∈ noteSection env p, b ≠ PdfBlock.pageBreak := by
  rcases p with ⟨i, n⟩
  intro b hb
  simp only [noteSection, List.mem_cons, List.mem_singleton, List.not_mem_nil, or_false] at hb
  rcases hb with h | h | h | h <;> subst h <;> simp

theorem chunksAux_sections (env : Env) (ps : List (Nat × Note)) :
    chunksAux (ps.flatMap (fun p => PdfBlock.pageBreak :: noteSection env p))
      = ([], ps.map (noteSection env)) := by
  induction ps with
  | nil => rfl
  | cons p ps ih =>
    simp only [List.flatMap_cons, List.cons_append, List.map_cons]
    rw [chunksAux_pageBreak, chunksAux_append_noBreak _ _ (noteSection_noBreak env p), ih]
    simp

theorem create_pdf_story (env : Env) (path task0 : String) (summary0 : JVal)
    (notes : List Note) :
    (create_pdf env path task0 summary0 notes).story =
      [PdfBlock.para "AI Research Report" "Title", PdfBlock.spacer 1 12,
       PdfBlock.para (env.unescape task0) "H2", PdfBlock.spacer 1 12,
       PdfBlock.para "Executive Summary" "H2"]
      ++ (pySplitNl (safe_text env summary0)).flatMap
           (fun p => [PdfBlock.para p "Body", PdfBlock.spacer 1 6])
      ++ notes.enum.flatMap (fun p => PdfBlock.pageBreak :: noteSection env p) := by
  simp only [create_pdf]
  split <;> rfl

theorem create_pdf_sections (env : Env) (path task0 : String) (summary0 : JVal)
    (notes : List Note) :
    sectionChunks (create_pdf env path task0 summary0 notes).story
      = notes.enum.map (noteSection env) := by
  rw [sectionChunks, create_pdf_story]
  rw [chunksAux_append_noBreak _ _ ?hpre]
  case hpre =>
    intro b hb
    simp only [List.mem_append, List.mem_cons, List.not_mem_nil, or_false,
      List.mem_flatMap, List.mem_singleton] at hb
    rcases hb with (h | h | h | h | h) | ⟨p, _, h | h⟩ <;> subst h <;> simp
  rw [chunksAux_sections]

theorem create_pdf_result (env : Env) (path task0 : String) (summary0 : JVal)
    (notes : List Note) :
    ((create_pdf env path task0 summary0 notes).result = some path
      ∧ (create_pdf env path task0 summary0 notes).logged = false)
    ∨ ((create_pdf env path task0 summary0 notes).result = none
      ∧ (create_pdf env path task0 summary0 notes).logged = true) := by
  simp only [create_pdf]
  split
  · exact Or.inl ⟨rfl, rfl⟩
  · exact Or.inr ⟨rfl, rfl⟩

/-! ## Trace lemmas about the loop components -/

theorem fallbackCall_result (env : Env) (task fs : String) (notes : List Note) :
    ((fallbackCall env task fs notes).result = some (fallbackCall env task fs notes).path
      ∧ (fallbackCall env task fs notes).logged = false)
    ∨ ((fallbackCall env task fs notes).result = none
      ∧ (fallbackCall env task fs notes).logged = true) :=
  create_pdf_result env (OUTPUT_DIR ++ "/" ++ ("report_partial_" ++ env.ts ++ ".pdf")) task
    (JVal.str (pyOr fs "Kein vollständiges Ergebnis.")) notes

theorem finishCall_result (env : Env) (task : String) (s : JVal) (notes : List Note) :
    ((finishCall env task s notes).result = some (finishCall env task s notes).path
      ∧ (finishCall env task s notes).logged = false)
    ∨ ((finishCall env task s notes).result = none
      ∧ (finishCall env task s notes).logged = true) :=
  create_pdf_result env (OUTPUT_DIR ++ "/" ++ ("report_" ++ env.ts ++ ".pdf")) task s notes

theorem runFallback_fields (env : Env) (task fs : String) (notes : List Note) (acc : RunAcc) :
    (runFallback env task fs notes acc).pdfCalls = acc.pdfCalls ++ [fallbackCall env task fs notes]
    ∧ (runFallback env task fs notes acc).lastUpdates
        = acc.lastUpdates ++ [⟨some (fallbackCall env task fs notes).path, true⟩]
    ∧ (runFallback env task fs notes acc).searchCalls = acc.searchCalls
    ∧ (runFallback env task fs notes acc).events
        = acc.events ++ ["📄 Zwischenstand PDF: /download?file="
            ++ baseName (fallbackCall env task fs notes).path]
    ∧ (runFallback env task fs notes acc).exn = none :=
  ⟨rfl, rfl, rfl, rfl, rfl⟩

theorem runFinish_fields (env : Env) (task : String) (s : JVal) (notes : List Note)
    (acc : RunAcc) :
    (runFinish env task s notes acc).pdfCalls = acc.pdfCalls ++ [finishCall env task s notes]
    ∧ (runFinish env task s notes acc).searchCalls = acc.searchCalls
    ∧ (runFinish env task s notes acc).exn = none
    ∧ ((finishCall env task s notes).result = none →
        (runFinish env task s notes acc).lastUpdates = acc.lastUpdates
        ∧ (runFinish env task s notes acc).events
            = acc.events ++ ["🎉 Finale Zusammenfassung erstellt!"])
    ∧ (∀ p, (finishCall env task s notes).result = some p →
        (runFinish env task s notes acc).lastUpdates = acc.lastUpdates ++ [⟨some p, true⟩]
        ∧ (runFinish env task s notes acc).events
            = acc.events ++ ["🎉 Finale Zusammenfassung erstellt!",
                "📄 PDF bereit: /download?file=" ++ baseName p]) := by
  simp only [runFinish]
  rcases h : (finishCall env task s notes).result with _ | p <;>
    simp only [h] <;>
    refine ⟨rfl, rfl, rfl, ?_, ?_⟩
  · exact fun _ => ⟨rfl, rfl⟩
  · intro p hp; cases hp
  · intro hn; cases hn
  · intro q hq
    cases hq
    exact ⟨rfl, by simp [RunAcc.done]⟩

theorem processResults_spec (env : Env) (rs : List SearchResult) :
    ∀ (notes : List Note) (acc : RunAcc),
      (processResults env rs notes acc).1 = notes ++ rs.map (findingOf env)
      ∧ (processResults env rs notes acc).2.searchCalls = acc.searchCalls
      ∧ (processResults env rs notes acc).2.pdfCalls = acc.pdfCalls
      ∧ (processResults env rs notes acc).2.lastUpdates = acc.lastUpdates := by
  induction rs with
  | nil => intro notes acc; simp [processResults]
  | cons r rest ih =>
    intro notes acc
    simp only [processResults]
    split
    next h =>
      rcases ih (notes ++ [⟨r.title, r.url, r.snippet⟩]) _ with ⟨h1, h2, h3, h4⟩
      refine ⟨?_, h2, h3, h4⟩
      rw [h1]
      simp [findingOf, h]
    next h =>
      rcases ih _ _ with ⟨h1, h2, h3, h4⟩
      refine ⟨?_, h2, h3, h4⟩
      rw [h1]
      simp [findingOf, h]

theorem runLoop_zero (env : Env) (task : String) (m : Nat) (msgs : List Msg)
    (notes : List Note) (acc : RunAcc) :
    runLoop env task m 0 msgs notes acc = runFallback env task "" notes acc := rfl

theorem runLoop_succ (env : Env) (task : String) (m fuel : Nat) (msgs : List Msg)
    (notes : List Note) (acc : RunAcc) :
    runLoop env task m (fuel + 1) msgs notes acc =
      (if ollama_chat env msgs = "" then
        runFallback env task "" notes
          { acc with events := acc.events ++ ["⚠️ Modell antwortet nicht."] }
      else
        match dispatchOf (parse_json_safe env.loads (ollama_chat env msgs)) with
        | Except.error e => acc.done (some e)
        | Except.ok act =>
          if act = "search" then
            runLoop env task m fuel (msgs ++ [⟨"user", "Neue Knowledge hinzugefügt."⟩])
              (processResults env
                (ddg_search env
                  (((objFieldsD (parse_json_safe env.loads (ollama_chat env msgs))).lookup
                      "query").getD (JVal.str task)) m) notes
                { acc with
                  events := acc.events ++ ["🔎 Suche nach: "
                    ++ fstr env (((objFieldsD (parse_json_safe env.loads
                        (ollama_chat env msgs))).lookup "query").getD (JVal.str task))],
                  searchCalls := acc.searchCalls
                    ++ [((((objFieldsD (parse_json_safe env.loads
                        (ollama_chat env msgs))).lookup "query").getD (JVal.str task)), m)] }).1
              (processResults env
                (ddg_search env
                  (((objFieldsD (parse_json_safe env.loads (ollama_chat env msgs))).lookup
                      "query").getD (JVal.str task)) m) notes
                { acc with
                  events := acc.events ++ ["🔎 Suche nach: "
                    ++ fstr env (((objFieldsD (parse_json_safe env.loads
                        (ollama_chat env msgs))).lookup "query").getD (JVal.str task))],
                  searchCalls := acc.searchCalls
                    ++ [((((objFieldsD (parse_json_safe env.loads
                        (ollama_chat env msgs))).lookup "query").getD (JVal.str task)), m)] }).2
          else if act = "finish" then
            runFinish env task
              (((objFieldsD (parse_json_safe env.loads (ollama_chat env msgs))).lookup
                  "summary").getD (JVal.str "")) notes acc
          else
            runFallback env task "" notes
              { acc with events := acc.events ++ ["⚠️ Ungültige Action."] }) := rfl

theorem phaseList_succ (env : Env) (task : String) (m fuel : Nat) (msgs : List Msg) :
    phaseList env task m (fuel + 1) msgs =
      (if ollama_chat env msgs = "" then []
      else
        match dispatchOf (parse_json_safe env.loads (ollama_chat env msgs)) with
        | Except.error _ => []
        | Except.ok act =>
          if act = "search" then
            (ddg_search env
                (((objFieldsD (parse_json_safe env.loads (ollama_chat env msgs))).lookup
                    "query").getD (JVal.str task)) m).map (findingOf env)
              :: phaseList env task m fuel (msgs ++ [⟨"user", "Neue Knowledge hinzugefügt."⟩])
          else []) := rfl

/-- The query the search branch uses for a given history: the decoded
action's query field, defaulting to the task. -/
def qOf (env : Env) (msgs : List Msg) (task : String) : JVal :=
  ((objFieldsD (parse_json_safe env.loads (ollama_chat env msgs))).lookup "query").getD
    (JVal.str task)

/-- The decoded terminal summary for a given history, defaulting to `""`. -/
def sOf (env : Env) (msgs : List Msg) : JVal :=
  ((objFieldsD (parse_json_safe env.loads (ollama_chat env msgs))).lookup "summary").getD
    (JVal.str "")

/-- The trace extension the search branch makes before fetching. -/
def accSearch (env : Env) (msgs : List Msg) (task : String) (m : Nat) (acc : RunAcc) : RunAcc :=
  { acc with
    events := acc.events ++ ["🔎 Suche nach: " ++ fstr env (qOf env msgs task)],
    searchCalls := acc.searchCalls ++ [(qOf env msgs task, m)] }

theorem runLoop_succ_silent (env : Env) (task : String) (m fuel : Nat) (msgs : List Msg)
    (notes : List Note) (acc : RunAcc) (hresp : ollama_chat env msgs = "") :
    runLoop env task m (fuel + 1) msgs notes acc =
      runFallback env task "" notes
        { acc with events := acc.events ++ ["⚠️ Modell antwortet nicht."] } := by
  rw [runLoop_succ, if_pos hresp]

theorem runLoop_succ_error (env : Env) (task : String) (m fuel : Nat) (msgs : List Msg)
    (notes : List Note) (acc : RunAcc) (e : String)
    (hresp : ¬ ollama_chat env msgs = "")
    (hdis : dispatchOf (parse_json_safe env.loads (ollama_chat env msgs)) = Except.error e) :
    runLoop env task m (fuel + 1) msgs notes acc = acc.done (some e) := by
  rw [runLoop_succ, if_neg hresp, hdis]

theorem runLoop_succ_search (env : Env) (task : String) (m fuel : Nat) (msgs : List Msg)
    (notes : List Note) (acc : RunAcc)
    (hresp : ¬ ollama_chat env msgs = "")
    (hdis : dispatchOf (parse_json_safe env.loads (ollama_chat env msgs))
      = Except.ok "search") :
    runLoop env task m (fuel + 1) msgs notes acc =
      runLoop env task m fuel (msgs ++ [⟨"user", "Neue Knowledge hinzugefügt."⟩])
        (processResults env (ddg_search env (qOf env msgs task) m) notes
          (accSearch env msgs task m acc)).1
        (processResults env (ddg_search env (qOf env msgs task) m) notes
          (accSearch env msgs task m acc)).2 := by
  rw [runLoop_succ, if_neg hresp, hdis]
  rfl

theorem runLoop_succ_finish (env : Env) (task : String) (m fuel : Nat) (msgs : List Msg)
    (notes : List Note) (acc : RunAcc)
    (hresp : ¬ ollama_chat env msgs = "")
    (hdis : dispatchOf (parse_json_safe env.loads (ollama_chat env msgs))
      = Except.ok "finish") :
    runLoop env task m (fuel + 1) msgs notes acc =
      runFinish env task (sOf env msgs) notes acc := by
  rw [runLoop_succ, if_neg hresp, hdis]
  rfl

theorem runLoop_succ_invalid (env : Env) (task : String) (m fuel : Nat) (msgs : List Msg)
    (notes : List Note) (acc : RunAcc) (act : String)
    (hresp : ¬ ollama_chat env msgs = "")
    (hdis : dispatchOf (parse_json_safe env.loads (ollama_chat env msgs)) = Except.ok act)
    (hact : ¬ act = "search") (hfin : ¬ act = "finish") :
    runLoop env task m (fuel + 1) msgs notes acc =
      runFallback env task "" notes
        { acc with events := acc.events ++ ["⚠️ Ungültige Action."] } := by
  rw [runLoop_succ, if_neg hresp, hdis]
  simp only [if_neg hact, if_neg hfin]

theorem phaseList_silent (env : Env) (task : String) (m fuel : Nat) (msgs : List Msg)
    (hresp : ollama_chat env msgs = "") :
    phaseList env task m (fuel + 1) msgs = [] := by
  rw [phaseList_succ, if_pos hresp]

theorem phaseList_error (env : Env) (task : String) (m fuel : Nat) (msgs : List Msg)
    (e : String) (hresp : ¬ ollama_chat env msgs = "")
    (hdis : dispatchOf (parse_json_safe env.loads (ollama_chat env msgs)) = Except.error e) :
    phaseList env task m (fuel + 1) msgs = [] := by
  rw [phaseList_succ, if_neg hresp, hdis]

theorem phaseList_search (env : Env) (task : String) (m fuel : Nat) (msgs : List Msg)
    (hresp : ¬ ollama_chat env msgs = "")
    (hdis : dispatchOf (parse_json_safe env.loads (ollama_chat env msgs))
      = Except.ok "search") :
    phaseList env task m (fuel + 1) msgs =
      (ddg_search env (qOf env msgs task) m).map (findingOf env)
        :: phaseList env task m fuel (msgs ++ [⟨"user", "Neue Knowledge hinzugefügt."⟩]) := by
  rw [phaseList_succ, if_neg hresp, hdis]
  rfl

theorem phaseList_nonsearch (env : Env) (task : String) (m fuel : Nat) (msgs : List Msg)
    (act : String) (hresp : ¬ ollama_chat env msgs = "")
    (hdis : dispatchOf (parse_json_safe env.loads (ollama_chat env msgs)) = Except.ok act)
    (hact : ¬ act = "search") :
    phaseList env task m (fuel + 1) msgs = [] := by
  rw [phaseList_succ, if_neg hresp, hdis]
  simp only [if_neg hact]

theorem getLast?_append_one {α : Type} (l : List α) (a : α) :
    (l ++ [a]).getLast? = some a := by
  rw [List.getLast?_concat]

theorem fallback_case (env : Env) (task : String) (notes : List Note) (acc0 : RunAcc) :
    ∃ c : PdfCall,
      (runFallback env task "" notes acc0).pdfCalls = acc0.pdfCalls ++ [c]
      ∧ (runFallback env task "" notes acc0).lastUpdates = acc0.lastUpdates ++ updatesOf c
      ∧ c.kind = PathKind.fallback
      ∧ c.task = task
      ∧ c.notes = notes
      ∧ c.story = (create_pdf env c.path c.task c.summary c.notes).story
      ∧ (c.result = none → c.logged = true)
      ∧ (∀ p, c.result = some p → p = c.path ∧ c.logged = false)
      ∧ c.summary = JVal.str "Kein vollständiges Ergebnis."
      ∧ c.path = OUTPUT_DIR ++ "/" ++ ("report_partial_" ++ env.ts ++ ".pdf") := by
  refine ⟨fallbackCall env task "" notes, rfl, rfl, rfl, rfl, rfl, rfl, ?_, ?_, rfl, rfl⟩
  · intro hnone
    rcases fallbackCall_result env task "" notes with ⟨hr, _⟩ | ⟨_, hl⟩
    · rw [hnone] at hr; cases hr
    · exact hl
  · intro p hp
    rcases fallbackCall_result env task "" notes with ⟨hr, hl⟩ | ⟨hr, _⟩
    · rw [hr] at hp
      exact ⟨(Option.some.injEq _ _ ▸ hp).symm, hl⟩
    · rw [hr] at hp; cases hp

theorem finish_case (env : Env) (task : String) (s : JVal) (notes : List Note) (acc : RunAcc) :
    ∃ c : PdfCall,
      (runFinish env task s notes acc).pdfCalls = acc.pdfCalls ++ [c]
      ∧ (runFinish env task s notes acc).lastUpdates = acc.lastUpdates ++ updatesOf c
      ∧ c.kind = PathKind.finish
      ∧ c.task = task
      ∧ c.notes = notes
      ∧ c.story = (create_pdf env c.path c.task c.summary c.notes).story
      ∧ (c.result = none → c.logged = true)
      ∧ (∀ p, c.result = some p → p = c.path ∧ c.logged = false)
      ∧ (c.result = none →
          (runFinish env task s notes acc).events.getLast?
            = some "🎉 Finale Zusammenfassung erstellt!") := by
  obtain ⟨hp, hs, hx, hnone, hsome⟩ := runFinish_fields env task s notes acc
  refine ⟨finishCall env task s notes, hp, ?_, rfl, rfl, rfl, rfl, ?_, ?_, ?_⟩
  · rcases hres : (finishCall env task s notes).result with _ | p
    · rw [(hnone hres).1]
      simp [updatesOf, hres, show (finishCall env task s notes).kind = PathKind.finish from rfl]
    · rw [(hsome p hres).1]
      simp [updatesOf, hres, show (finishCall env task s notes).kind = PathKind.finish from rfl]
  · intro hres
    rcases finishCall_result env task s notes with ⟨hr, _⟩ | ⟨_, hl⟩
    · rw [hres] at hr; cases hr
    · exact hl
  · intro p hres
    rcases finishCall_result env task s notes with ⟨hr, hl⟩ | ⟨hr, _⟩
    · rw [hr] at hres
      exact ⟨(Option.some.injEq _ _ ▸ hres).symm, hl⟩
    · rw [hr] at hres; cases hres
  · intro hres
    rw [(hnone hres).2]
    exact getLast?_append_one _ _

theorem runLoop_master (env : Env) (task : String) (m : Nat) :
    ∀ (fuel : Nat) (msgs : List Msg) (notes : List Note) (acc : RunAcc),
      (runLoop env task m fuel msgs notes acc).exn = none →
      ∃ c : PdfCall,
        (runLoop env task m fuel msgs notes acc).pdfCalls = acc.pdfCalls ++ [c]
        ∧ (runLoop env task m fuel msgs notes acc).lastUpdates
            = acc.lastUpdates ++ updatesOf c
        ∧ c.task = task
        ∧ c.notes = notes ++ (phaseList env task m fuel msgs).flatten
        ∧ c.story = (create_pdf env c.path c.task c.summary c.notes).story
        ∧ (c.result = none → c.logged = true)
        ∧ (∀ p, c.result = some p → p = c.path ∧ c.logged = false)
        ∧ (c.kind = PathKind.fallback →
            c.summary = JVal.str "Kein vollständiges Ergebnis."
            ∧ c.path = OUTPUT_DIR ++ "/" ++ ("report_partial_" ++ env.ts ++ ".pdf"))
        ∧ (c.kind = PathKind.finish → c.result = none →
            (runLoop env task m fuel msgs notes acc).events.getLast?
              = some "🎉 Finale Zusammenfassung erstellt!") := by
  intro fuel
  induction fuel with
  | zero =>
    intro msgs notes acc _
    rw [runLoop_zero]
    obtain ⟨c, h1, h2, hk, h3, h4, h5, h6, h7, h8, h9⟩ := fallback_case env task notes acc
    refine ⟨c, h1, h2, h3, ?_, h5, h6, h7, fun _ => ⟨h8, h9⟩, fun hf => ?_⟩
    · rw [h4]
      simp [phaseList]
    · rw [hk] at hf
      cases hf
  | succ fuel ih =>
    intro msgs notes acc hr
    by_cases hresp : ollama_chat env msgs = ""
    · rw [runLoop_succ_silent env task m fuel msgs notes acc hresp] at hr ⊢
      rw [phaseList_silent env task m fuel msgs hresp]
      obtain ⟨c, h1, h2, hk, h3, h4, h5, h6, h7, h8, h9⟩ :=
        fallback_case env task notes
          { acc with events := acc.events ++ ["⚠️ Modell antwortet nicht."] }
      refine ⟨c, h1, h2, h3, ?_, h5, h6, h7, fun _ => ⟨h8, h9⟩, fun hf => ?_⟩
      · rw [h4]
        simp
      · rw [hk] at hf
        cases hf
    · cases hdis : dispatchOf (parse_json_safe env.loads (ollama_chat env msgs)) with
      | error e =>
        rw [runLoop_succ_error env task m fuel msgs notes acc e hresp hdis] at hr
        simp [RunAcc.done] at hr
      | ok act =>
        by_cases hact : act = "search"
        · subst hact
          rw [runLoop_succ_search env task m fuel msgs notes acc hresp hdis] at hr ⊢
          rw [phaseList_search env task m fuel msgs hresp hdis]
          obtain ⟨c, h1, h2, h3, h4, h5, h6, h7, h8, h9⟩ :=
            ih (msgs ++ [⟨"user", "Neue Knowledge hinzugefügt."⟩])
              (processResults env (ddg_search env (qOf env msgs task) m) notes
                (accSearch env msgs task m acc)).1
              (processResults env (ddg_search env (qOf env msgs task) m) notes
                (accSearch env msgs task m acc)).2 hr
          obtain ⟨p1, p2, p3, p4⟩ :=
            processResults_spec env (ddg_search env (qOf env msgs task) m) notes
              (accSearch env msgs task m acc)
          refine ⟨c, ?_, ?_, h3, ?_, h5, h6, h7, h8, h9⟩
          · rw [h1, p3]
            rfl
          · rw [h2, p4]
            rfl
          · rw [h4, p1, List.flatten_cons, ← List.append_assoc]
        · by_cases hfin : act = "finish"
          · subst hfin
            rw [runLoop_succ_finish env task m fuel msgs notes acc hresp hdis] at hr ⊢
            rw [phaseList_nonsearch env task m fuel msgs "finish" hresp hdis (by decide)]
            obtain ⟨c, h1, h2, hk, h3, h4, h5, h6, h7, h9⟩ :=
              finish_case env task (sOf env msgs) notes acc
            refine ⟨c, h1, h2, h3, ?_, h5, h6, h7, fun hf => ?_, fun _ => h9⟩
            · rw [h4]
              simp
            · rw [hk] at hf
              cases hf
          · rw [runLoop_succ_invalid env task m fuel msgs notes acc act hresp hdis hact hfin]
                at hr ⊢
            rw [phaseList_nonsearch env task m fuel msgs act hresp hdis hact]
            obtain ⟨c, h1, h2, hk, h3, h4, h5, h6, h7, h8, h9⟩ :=
              fallback_case env task notes
                { acc with events := acc.events ++ ["⚠️ Ungültige Action."] }
            refine ⟨c, h1, h2, h3, ?_, h5, h6, h7, fun _ => ⟨h8, h9⟩, fun hf => ?_⟩
            · rw [h4]
              simp
            · rw [hk] at hf
              cases hf

theorem runLoop_searchCalls_mono (env : Env) (task : String) (m : Nat) :
    ∀ (fuel : Nat) (msgs : List Msg) (notes : List Note) (acc : RunAcc),
      ∃ s, (runLoop env task m fuel msgs notes acc).searchCalls = acc.searchCalls ++ s := by
  intro fuel
  induction fuel with
  | zero =>
    intro msgs notes acc
    exact ⟨[], by
      rw [runLoop_zero, (runFallback_fields env task "" notes acc).2.2.1, List.append_nil]⟩
  | succ fuel ih =>
    intro msgs notes acc
    by_cases hresp : ollama_chat env msgs = ""
    · refine ⟨[], ?_⟩
      rw [runLoop_succ_silent env task m fuel msgs notes acc hresp,
        (runFallback_fields env task "" notes _).2.2.1, List.append_nil]
    · cases hdis : dispatchOf (parse_json_safe env.loads (ollama_chat env msgs)) with
      | error e =>
        refine ⟨[], ?_⟩
        rw [runLoop_succ_error env task m fuel msgs notes acc e hresp hdis, List.append_nil]
        rfl
      | ok act =>
        by_cases hact : act = "search"
        · subst hact
          rw [runLoop_succ_search env task m fuel msgs notes acc hresp hdis]
          obtain ⟨s, hs⟩ := ih (msgs ++ [⟨"user", "Neue Knowledge hinzugefügt."⟩])
            (processResults env (ddg_search env (qOf env msgs task) m) notes
              (accSearch env msgs task m acc)).1
            (processResults env (ddg_search env (qOf env msgs task) m) notes
              (accSearch env msgs task m acc)).2
          refine ⟨(qOf env msgs task, m) :: s, ?_⟩
          rw [hs,
            (processResults_spec env (ddg_search env (qOf env msgs task) m) notes
              (accSearch env msgs task m acc)).2.1]
          show (accSearch env msgs task m acc).searchCalls ++ s = _
          rw [show (accSearch env msgs task m acc).searchCalls
              = acc.searchCalls ++ [(qOf env msgs task, m)] from rfl,
            List.append_assoc]
          rfl
        · by_cases hfin : act = "finish"
          · subst hfin
            refine ⟨[], ?_⟩
            rw [runLoop_succ_finish env task m fuel msgs notes acc hresp hdis,
              (runFinish_fields env task (sOf env msgs) notes acc).2.1, List.append_nil]
          · refine ⟨[], ?_⟩
            rw [runLoop_succ_invalid env task m fuel msgs notes acc act hresp hdis hact hfin,
              (runFallback_fields env task "" notes _).2.2.1, List.append_nil]

theorem enumFrom_map_getElem {α β : Type} (f : Nat × α → β) :
    ∀ (l : List α) (k i : Nat) (h : i < l.length),
      ((List.enumFrom k l).map f)[i]? = some (f (k + i, l.get ⟨i, h⟩)) := by
  intro l
  induction l with
  | nil => intro k i h; exact absurd h (Nat.not_lt_zero i)
  | cons x xs ih =>
    intro k i h
    cases i with
    | zero => simp [List.enumFrom]
    | succ j =>
      have hj : j < xs.length := Nat.lt_of_succ_lt_succ h
      have hadd : (k + 1) + j = k + (j + 1) := by omega
      simp only [List.enumFrom, List.map_cons, List.getElem?_cons_succ]
      rw [ih (k + 1) j hj, hadd]
      rfl

theorem ddg_collect_length (env : Env) (m : Nat) :
    ∀ (as : List Anchor) (acc : List SearchResult), acc.length < m →
      (ddg_collect env m as acc).length ≤ m := by
  intro as
  induction as with
  | nil => intro acc h; simpa [ddg_collect] using Nat.le_of_lt h
  | cons a rest ih =>
    intro acc h
    simp only [ddg_collect]
    by_cases hs : pyStartsWith a.href "http" = true
    · simp only [if_pos hs]
      by_cases hm : m ≤ (acc ++ [mkResult env a]).length
      · simp only [if_pos hm]
        simp only [List.length_append, List.length_singleton]
        omega
      · simp only [if_neg hm]
        exact ih (acc ++ [mkResult env a]) (Nat.lt_of_not_le hm)
    · simp only [if_neg hs]
      by_cases hm : m ≤ acc.length
      · simp only [if_pos hm]
        omega
      · simp only [if_neg hm]
        exact ih acc (Nat.lt_of_not_le hm)

theorem ddg_collect_mem (env : Env) (m : Nat) (P : SearchResult → Prop) :
    ∀ (as : List Anchor) (acc : List SearchResult),
      (∀ a ∈ as, pyStartsWith a.href "http" = true → P (mkResult env a)) →
      (∀ r ∈ acc, P r) →
      ∀ r ∈ ddg_collect env m as acc, P r := by
  intro as
  induction as with
  | nil =>
    intro acc _ hacc r hr
    exact hacc r (by simpa [ddg_collect] using hr)
  | cons a rest ih =>
    intro acc has hacc r hr
    simp only [ddg_collect] at hr
    by_cases hs : pyStartsWith a.href "http" = true
    · simp only [if_pos hs] at hr
      by_cases hm : m ≤ (acc ++ [mkResult env a]).length
      · simp only [if_pos hm] at hr
        rcases List.mem_append.mp hr with h | h
        · exact hacc r h
        · rw [List.mem_singleton.mp h]
          exact has a (by simp) hs
      · simp only [if_neg hm] at hr
        refine ih (acc ++ [mkResult env a]) (fun x hx hpx => has x (by simp [hx]) hpx) ?_ r hr
        intro x hx
        rcases List.mem_append.mp hx with h | h
        · exact hacc x h
        · rw [List.mem_singleton.mp h]
          exact has a (by simp) hs
    · simp only [if_neg hs] at hr
      by_cases hm : m ≤ acc.length
      · simp only [if_pos hm] at hr
        exact hacc r hr
      · simp only [if_neg hm] at hr
        exact ih acc (fun x hx hpx => has x (by simp [hx]) hpx) hacc r hr

theorem fetch_go_allFail (env : Env) (u : String)
    (h : ∀ j, env.attemptOutcome u j = none) :
    ∀ (rem i : Nat) (used : List Nat),
      fetch_go env u rem i used
        = ⟨"", used ++ (List.range rem).map (fun k => (i + k) % COMMON_HEADERS.length)⟩ := by
  intro rem
  induction rem with
  | zero => intro i used; simp [fetch_go]
  | succ rem ih =>
    intro i used
    simp only [fetch_go, h i]
    rw [ih (i + 1) (used ++ [i % COMMON_HEADERS.length])]
    rw [List.range_succ_eq_map, List.map_cons, List.map_map]
    have hf : ((fun k => (i + k) % COMMON_HEADERS.length) ∘ Nat.succ)
        = fun k => ((i + 1) + k) % COMMON_HEADERS.length := by
      funext k
      simp only [Function.comp]
      congr 1
      omega
    rw [hf]
    simp [List.append_assoc]

/-! ## Concrete environments for witnesses and counterexamples -/

/-- A strict parser that fails on every input: the behaviour of
`json.loads` on the non-JSON strings at which it is used below. -/
def loadsNone : String → Option JVal := fun _ => none

/-- A fragment of `json.loads`: in Python, `json.loads("123")` succeeds and
returns the number `123` (not a dict). -/
def loadsNum : String → Option JVal :=
  fun s => if s = "123" then some (JVal.num 123) else none

/-- A world whose oracle is silent, whose network always fails, and whose
render backend succeeds; `html.unescape` is the identity (correct for
strings without entity references). -/
def envSilent : Env :=
  ⟨fun _ => "", loadsNone, fun _ => none, fun _ _ => none, fun _ _ => none,
   fun _ => "", id, fun _ => "", fun _ _ => true, "20240101_000000"⟩

/-- The oracle output used by `envFinishFail`; `json.loads` parses it to
the dict with action "finish" and summary "done". -/
def finishJson : String := "\x7b\"action\":\"finish\",\"summary\":\"done\"\x7d"

/-- A world whose oracle immediately answers with a finish action and whose
render backend always raises. -/
def envFinishFail : Env :=
  ⟨fun _ => finishJson,
   fun s => if s = finishJson then
      some (JVal.obj [("action", JVal.str "finish"), ("summary", JVal.str "done")])
    else none,
   fun _ => none, fun _ _ => none, fun _ _ => none,
   fun _ => "", id, fun _ => "", fun _ _ => false, "20240101_000000"⟩

/-- The oracle output used by `envSearchNoQuery`; `json.loads` parses it to
a dict with action "search" and no query field. -/
def searchJson : String := "\x7b\"action\": \"search\"\x7d"

/-- A world whose oracle answers with a search action that has no query
field; the search request itself fails. -/
def envSearchNoQuery : Env :=
  ⟨fun _ => searchJson,
   fun s => if s = searchJson then some (JVal.obj [("action", JVal.str "search")]) else none,
   fun _ => none, fun _ _ => none, fun _ _ => none,
   fun _ => "", id, fun _ => "", fun _ _ => true, "20240101_000000"⟩

/-- A world whose search backend returns a single http anchor with anchor
text "t" and no parent. -/
def envOneAnchor : Env :=
  ⟨fun _ => "", loadsNone, fun _ => some [⟨"http://a.example", "t", none⟩],
   fun _ _ => none, fun _ _ => none,
   fun _ => "", id, fun _ => "", fun _ _ => true, "20240101_000000"⟩

/-! ## C1 — decoding and dispatch never raise -/

/-- C1 (amended): for every oracle output on which the strict JSON parse
fails, keyword-heuristic decoding and the dispatch on the decoded action
never raise, and an output containing neither keyword decodes to the
Invalid variant (the empty object). -/
theorem decode_dispatch_total_on_parse_failure (loads : String → Option JVal) (s : String)
    (h : loads s = none) :
    (dispatchOf (parse_json_safe loads s)).isOk = true
    ∧ (pyContains s "search" = false → pyContains s "finish" = false →
        parse_json_safe loads s = JVal.obj []) := by
  constructor
  · by_cases h1 : pyContains s "search" = true
    · simp [parse_json_safe, h, h1, dispatchOf, pyGet, Except.isOk, Except.toBool]
    · by_cases h2 : pyContains s "finish" = true
      · simp [parse_json_safe, h, h1, h2, dispatchOf, pyGet, Except.isOk, Except.toBool]
      · simp [parse_json_safe, h, h1, h2, dispatchOf, pyGet, Except.isOk, Except.toBool]
  · intro h1 h2
    simp [parse_json_safe, h, h1, h2]

/-- C1 witness: the amended theorem at the non-JSON output "hello". -/
theorem decode_dispatch_total_witness :
    loadsNone "hello" = none
    ∧ (dispatchOf (parse_json_safe loadsNone "hello")).isOk = true
    ∧ parse_json_safe loadsNone "hello" = JVal.obj [] :=
  ⟨rfl, (decode_dispatch_total_on_parse_failure loadsNone "hello" rfl).1,
   (decode_dispatch_total_on_parse_failure loadsNone "hello" rfl).2 rfl rfl⟩

/-- C1 counterexample: `json.loads("123")` succeeds with the number 123,
the heuristics are skipped, and the dispatch line
`action.get("action", "").lower()` raises AttributeError on the decoded
non-dict value. -/
theorem dispatch_raises_on_numeric_output :
    loadsNum "123" = some (JVal.num 123)
    ∧ dispatchOf (parse_json_safe loadsNum "123") = Except.error "AttributeError" :=
  ⟨rfl, rfl⟩

/-! ## C3 — outputs containing "finish" -/

/-- Is the strict parse of `s` a valid JSON search action (an object whose
action field is the string "search")?  This renders the claim's own side
condition. -/
def validJsonSearchAction (loads : String → Option JVal) (s : String) : Bool :=
  match loads s with
  | some (JVal.obj fields) =>
    match fields.lookup "action" with
    | some (JVal.str a) => a == "search"
    | _ => false
  | _ => false

/-- C3 (amended): for every oracle output on which the strict JSON parse
fails and which contains "finish" but not "search" (case-insensitive),
decoding yields the Finish variant with the raw output as the summary. -/
theorem decode_finish_keyword (loads : String → Option JVal) (s : String)
    (h : loads s = none) (hs : pyContains s "search" = false)
    (hf : pyContains s "finish" = true) :
    parse_json_safe loads s
      = JVal.obj [("action", JVal.str "finish"), ("summary", JVal.str s)] := by
  simp [parse_json_safe, h, hs, hf]

/-- C3 witness: the amended theorem at the output "please finish". -/
theorem decode_finish_keyword_witness :
    loadsNone "please finish" = none
    ∧ pyContains "please finish" "search" = false
    ∧ pyContains "please finish" "finish" = true
    ∧ parse_json_safe loadsNone "please finish"
        = JVal.obj [("action", JVal.str "finish"), ("summary", JVal.str "please finish")] :=
  ⟨rfl, rfl, rfl, decode_finish_keyword loadsNone "please finish" rfl rfl rfl⟩

/-- C3 counterexample: "finish the search" contains "finish" and is not a
valid JSON search action, yet it decodes to the Search variant, because
the "search" keyword test runs first. -/
theorem decode_finish_claim_false :
    pyContains "finish the search" "finish" = true
    ∧ validJsonSearchAction loadsNone "finish the search" = false
    ∧ parse_json_safe loadsNone "finish the search"
        = JVal.obj [("action", JVal.str "search"), ("query", JVal.str "finish the search")]
    ∧ ¬ parse_json_safe loadsNone "finish the search"
        = JVal.obj [("action", JVal.str "finish"),
            ("summary", JVal.str "finish the search")] := by
  refine ⟨rfl, rfl, rfl, ?_⟩
  intro hcontra
  rw [show parse_json_safe loadsNone "finish the search"
      = JVal.obj [("action", JVal.str "search"), ("query", JVal.str "finish the search")]
      from rfl] at hcontra
  simp at hcontra

/-! ## C4 — total fetch failure -/

/-- C4: on a URL where every attempt raises, `fetch_page` returns exactly
the empty string after exactly 3 attempts, never raising; attempt `i` uses
identity profile `i % len(COMMON_HEADERS)`, so the 3 attempts use the 3
distinct profiles 0, 1, 2. -/
theorem fetch_total_failure (env : Env) (url : String)
    (h : ∀ i, env.attemptOutcome (env.unescape url) i = none) :
    fetch_page env url 3 = ⟨"", [0, 1, 2]⟩
    ∧ ([0, 1, 2] : List Nat) = (List.range 3).map (fun i => i % COMMON_HEADERS.length)
    ∧ ([0, 1, 2] : List Nat).Nodup := by
  refine ⟨?_, by decide, by decide⟩
  show fetch_go env (env.unescape url) 3 0 [] = (⟨"", [0, 1, 2]⟩ : FetchOut)
  rw [fetch_go_allFail env (env.unescape url) h 3 0 []]
  decide

/-- C4 witness: the theorem in a world where every attempt fails. -/
theorem fetch_total_failure_witness :
    (∀ i, envSilent.attemptOutcome (envSilent.unescape "http://x.example") i = none)
    ∧ fetch_page envSilent "http://x.example" 3 = ⟨"", [0, 1, 2]⟩ :=
  ⟨fun _ => rfl, (fetch_total_failure envSilent "http://x.example" (fun _ => rfl)).1⟩

/-! ## C5 — search result bound and population -/

/-- C5 (amended): for every positive `maxResults`, `ddg_search` returns at
most `maxResults` results; on a request/parse failure it returns the empty
sequence; and every returned result comes from an http anchor, with
`title = unescape (anchor text or href)`, `url = href`, and
`snippet = unescape (parent text or "")`.  (With `maxResults = 0` the
length bound fails, see the counterexample.) -/
theorem search_results_bounded (env : Env) (q : JVal) (m : Nat) (hm : 1 ≤ m) :
    (env.searchAnchors q = none → ddg_search env q m = [])
    ∧ (ddg_search env q m).length ≤ m
    ∧ (∀ r ∈ ddg_search env q m, ∃ a ∈ (env.searchAnchors q).getD [],
        pyStartsWith a.href "http" = true
        ∧ r.title = env.unescape (pyOr a.text a.href)
        ∧ r.url = a.href
        ∧ r.snippet = env.unescape (a.parentText.getD "")) := by
  refine ⟨?_, ?_, ?_⟩
  · intro h
    simp [ddg_search, h]
  · cases h : env.searchAnchors q with
    | none => simp [ddg_search, h]
    | some as =>
      simp only [ddg_search, h]
      have h0 : ([] : List SearchResult).length < m := by
        simp only [List.length_nil]
        omega
      exact ddg_collect_length env m as [] h0
  · intro r hr
    cases h : env.searchAnchors q with
    | none =>
      simp only [ddg_search, h] at hr
      simp at hr
    | some as =>
      simp only [ddg_search, h] at hr
      simp only [h, Option.getD_some]
      exact ddg_collect_mem env m
        (fun r => ∃ a ∈ as, pyStartsWith a.href "http" = true
          ∧ r.title = env.unescape (pyOr a.text a.href)
          ∧ r.url = a.href
          ∧ r.snippet = env.unescape (a.parentText.getD "")) as []
        (fun a ha hpa => ⟨a, ha, hpa, rfl, rfl, rfl⟩) (by simp) r hr

/-- C5 witness: the amended theorem at `maxResults = 2` in a world with one
anchor. -/
theorem search_results_bounded_witness :
    (1 : Nat) ≤ 2
    ∧ (ddg_search envOneAnchor (JVal.str "q") 2).length ≤ 2
    ∧ ddg_search envOneAnchor (JVal.str "q") 2 = [⟨"t", "http://a.example", ""⟩] :=
  ⟨by decide, (search_results_bounded envOneAnchor (JVal.str "q") 2 (by decide)).2.1, rfl⟩

/-- C5 counterexample: with `maxResults = 0` and one http anchor, the
length check runs only after the append, so one result is returned and the
"at most maxResults" bound fails. -/
theorem search_cap_claim_false :
    envOneAnchor.searchAnchors (JVal.str "q") = some [⟨"http://a.example", "t", none⟩]
    ∧ ddg_search envOneAnchor (JVal.str "q") 0 = [⟨"t", "http://a.example", ""⟩]
    ∧ ¬ (ddg_search envOneAnchor (JVal.str "q") 0).length ≤ 0 :=
  ⟨rfl, rfl, by decide⟩

/-! ## C2 — exactly one report per completed run -/

/-- C2 (amended): every completed run (no uncaught exception), whatever
its termination path — explicit finish, invalid-action abort, oracle
silence, or budget exhaustion — invokes `create_pdf` exactly once, and
that single invocation produces exactly one artifact (its timestamped
path) unless the render backend raised, in which case it produces no
artifact and logs the failure. -/
theorem run_exactly_one_report (env : Env) (task : String) (m : Nat)
    (h : (run_agent_stream env task m).exn = none) :
    ∃ c : PdfCall,
      (run_agent_stream env task m).pdfCalls = [c]
      ∧ c.task = task
      ∧ (c.result = some c.path ∨ (c.result = none ∧ c.logged = true)) := by
  obtain ⟨c, h1, _, h3, _, _, h6, h7, _, _⟩ :=
    runLoop_master env task m 20 (initMessages task) [] ⟨[], [], [], []⟩ h
  refine ⟨c, by simpa using h1, h3, ?_⟩
  cases hres : c.result with
  | none => exact Or.inr ⟨rfl, h6 hres⟩
  | some p => exact Or.inl (by rw [(h7 p hres).1])

/-- C2 witness: the amended theorem in the silent-oracle world, which
completes by the oracle-silence path with a succeeding render backend. -/
theorem run_exactly_one_report_witness :
    (run_agent_stream envSilent "t" 3).exn = none
    ∧ ∃ c, (run_agent_stream envSilent "t" 3).pdfCalls = [c] ∧ c.task = "t"
        ∧ (c.result = some c.path ∨ (c.result = none ∧ c.logged = true)) :=
  ⟨rfl, run_exactly_one_report envSilent "t" 3 rfl⟩

/-- C2 counterexample: a completed run — explicit Finish with the render
backend raising — in which the report assembler was invoked exactly once
yet no report artifact was produced: the invocation returned `None` and
the most-recent-artifact pointer was never set. -/
theorem one_artifact_claim_false :
    (run_agent_stream envFinishFail "t" 3).exn = none
    ∧ (run_agent_stream envFinishFail "t" 3).pdfCalls.length = 1
    ∧ (run_agent_stream envFinishFail "t" 3).pdfCalls.map PdfCall.result = [none]
    ∧ (run_agent_stream envFinishFail "t" 3).lastUpdates = [] :=
  ⟨rfl, rfl, rfl, rfl⟩

/-! ## C6 — budget exhaustion still yields an artifact with the literal -/

/-- C7: in every completed run, the single report's notes are exactly the
findings of the run's search phases in phase order (append order), and the
page-broken sections of the assembled story list those notes one section
per finding, in the same order, each section carrying the finding's title
in its heading, its source URL line, and its summary text. -/
theorem run_findings_order (env : Env) (task : String) (m : Nat)
    (h : (run_agent_stream env task m).exn = none) :
    ∃ c : PdfCall,
      (run_agent_stream env task m).pdfCalls = [c]
      ∧ c.notes = (phaseList env task m 20 (initMessages task)).flatten
      ∧ sectionChunks c.story = c.notes.enum.map (noteSection env)
      ∧ (sectionChunks c.story).length = c.notes.length
      ∧ (∀ i (hi : i < c.notes.length),
          (sectionChunks c.story)[i]?
            = some [PdfBlock.para (toString (i + 1) ++ ". " ++ (c.notes.get ⟨i, hi⟩).title) "H2",
                PdfBlock.para ("URL: " ++ (c.notes.get ⟨i, hi⟩).url) "Body",
                PdfBlock.spacer 1 6,
                PdfBlock.para (env.unescape (c.notes.get ⟨i, hi⟩).summary) "Body"]) := by
  obtain ⟨c, h1, _, _, h4, h5, _⟩ :=
    runLoop_master env task m 20 (initMessages task) [] ⟨[], [], [], []⟩ h
  have hsec : sectionChunks c.story = c.notes.enum.map (noteSection env) := by
    rw [h5]
    exact create_pdf_sections env c.path c.task c.summary c.notes
  refine ⟨c, by simpa using h1, by simpa using h4, hsec, ?_, ?_⟩
  · rw [hsec]
    simp [List.enum_length]
  · intro i hi
    rw [hsec, show c.notes.enum = List.enumFrom 0 c.notes from rfl,
      enumFrom_map_getElem (noteSection env) c.notes 0 i hi, Nat.zero_add]
    rfl

/-- C7 witness: the theorem in the silent-oracle world. -/
theorem run_findings_order_witness :
    (run_agent_stream envSilent "t" 3).exn = none
    ∧ ∃ c : PdfCall,
        (run_agent_stream envSilent "t" 3).pdfCalls = [c]
        ∧ c.notes = (phaseList envSilent "t" 3 20 (initMessages "t")).flatten
        ∧ sectionChunks c.story = c.notes.enum.map (noteSection envSilent)
        ∧ (sectionChunks c.story).length = c.notes.length
        ∧ (∀ i (hi : i < c.notes.length),
            (sectionChunks c.story)[i]?
              = some [PdfBlock.para (toString (i + 1) ++ ". "
                    ++ (c.notes.get ⟨i, hi⟩).title) "H2",
                  PdfBlock.para ("URL: " ++ (c.notes.get ⟨i, hi⟩).url) "Body",
                  PdfBlock.spacer 1 6,
                  PdfBlock.para (envSilent.unescape (c.notes.get ⟨i, hi⟩).summary) "Body"]) :=
  ⟨rfl, run_findings_order envSilent "t" 3 rfl⟩

/-! ## C8 — behaviour when report assembly fails -/

/-- C8 (amended): in every completed run whose single `create_pdf` call
fails (render backend raised), the failure is logged inside the assembler
and surfaced as a `None` artifact reference; in the explicit-Finish path
the `LAST_REPORT` pointer is left unchanged and no event follows — the
run's last event is the completion event, not a no-artifact notice. -/
theorem render_failure_no_event (env : Env) (task : String) (m : Nat)
    (h : (run_agent_stream env task m).exn = none) :
    ∃ c : PdfCall,
      (run_agent_stream env task m).pdfCalls = [c]
      ∧ (c.result = none → c.logged = true)
      ∧ (c.kind = PathKind.finish → c.result = none →
          (run_agent_stream env task m).lastUpdates = []
          ∧ (run_agent_stream env task m).events.getLast?
              = some "🎉 Finale Zusammenfassung erstellt!") := by
  obtain ⟨c, h1, h2, _, _, _, h6, _, _, h9⟩ :=
    runLoop_master env task m 20 (initMessages task) [] ⟨[], [], [], []⟩ h
  refine ⟨c, by simpa using h1, h6, ?_⟩
  intro hk hres
  refine ⟨?_, h9 hk hres⟩
  show (runLoop env task m 20 (initMessages task) [] ⟨[], [], [], []⟩).lastUpdates = []
  rw [h2]
  simp [updatesOf, hk, hres]

/-- C8 witness: the amended theorem in the world whose oracle finishes
immediately and whose render backend always raises. -/
theorem render_failure_no_event_witness :
    (run_agent_stream envFinishFail "t" 3).exn = none
    ∧ ∃ c : PdfCall,
        (run_agent_stream envFinishFail "t" 3).pdfCalls = [c]
        ∧ (c.result = none → c.logged = true)
        ∧ (c.kind = PathKind.finish → c.result = none →
            (run_agent_stream envFinishFail "t" 3).lastUpdates = []
            ∧ (run_agent_stream envFinishFail "t" 3).events.getLast?
                = some "🎉 Finale Zusammenfassung erstellt!") :=
  ⟨rfl, render_failure_no_event envFinishFail "t" 3 rfl⟩

/-- C8 counterexample: in a run where the oracle finishes and the render
backend raises, the assembly fails (`result = none`), yet the event stream
contains only the completion event emitted before assembly — no final
event indicating that no artifact is available is ever pushed, and the
pointer is not updated. -/
theorem render_failure_claim_false :
    (run_agent_stream envFinishFail "t" 3).pdfCalls.map PdfCall.result = [none]
    ∧ (run_agent_stream envFinishFail "t" 3).events = ["🎉 Finale Zusammenfassung erstellt!"]
    ∧ (run_agent_stream envFinishFail "t" 3).lastUpdates = []
    ∧ (run_agent_stream envFinishFail "t" 3).exn = none :=
  ⟨rfl, rfl, rfl, rfl⟩

/-! ## C9 — a Search action without a query searches for the task -/

/-- C9: whenever a decision decodes to a search action whose dict has no
"query" field, the loop's next `ddg_search` call uses the task string
itself as the query. -/
theorem search_missing_query_uses_task (env : Env) (task : String) (m fuel : Nat)
    (msgs : List Msg) (notes : List Note) (acc : RunAcc)
    (hresp : ¬ ollama_chat env msgs = "")
    (hdis : dispatchOf (parse_json_safe env.loads (ollama_chat env msgs)) = Except.ok "search")
    (hq : (objFieldsD (parse_json_safe env.loads (ollama_chat env msgs))).lookup "query"
      = none) :
    ∃ rest, (runLoop env task m (fuel + 1) msgs notes acc).searchCalls
      = acc.searchCalls ++ (JVal.str task, m) :: rest := by
  rw [runLoop_succ_search env task m fuel msgs notes acc hresp hdis]
  obtain ⟨s, hs⟩ := runLoop_searchCalls_mono env task m fuel
    (msgs ++ [⟨"user", "Neue Knowledge hinzugefügt."⟩])
    (processResults env (ddg_search env (qOf env msgs task) m) notes
      (accSearch env msgs task m acc)).1
    (processResults env (ddg_search env (qOf env msgs task) m) notes
      (accSearch env msgs task m acc)).2
  refine ⟨s, ?_⟩
  rw [hs,
    (processResults_spec env (ddg_search env (qOf env msgs task) m) notes
      (accSearch env msgs task m acc)).2.1]
  have hq2 : qOf env msgs task = JVal.str task := by
    simp [qOf, hq]
  show (accSearch env msgs task m acc).searchCalls ++ s = _
  rw [show (accSearch env msgs task m acc).searchCalls
      = acc.searchCalls ++ [(qOf env msgs task, m)] from rfl, hq2, List.append_assoc]
  rfl

/-- C9 witness: the theorem in the world whose oracle returns a JSON
search action with no query field. -/
theorem search_missing_query_uses_task_witness :
    ¬ ollama_chat envSearchNoQuery (initMessages "mytask") = ""
    ∧ dispatchOf (parse_json_safe envSearchNoQuery.loads
        (ollama_chat envSearchNoQuery (initMessages "mytask"))) = Except.ok "search"
    ∧ (objFieldsD (parse_json_safe envSearchNoQuery.loads
        (ollama_chat envSearchNoQuery (initMessages "mytask")))).lookup "query" = none
    ∧ ∃ rest, (runLoop envSearchNoQuery "mytask" 3 (0 + 1) (initMessages "mytask") []
        ⟨[], [], [], []⟩).searchCalls
          = (⟨[], [], [], []⟩ : RunAcc).searchCalls ++ (JVal.str "mytask", 3) :: rest :=
  ⟨(by decide : ¬ searchJson = ""), rfl, rfl,
   search_missing_query_uses_task envSearchNoQuery "mytask" 3 0 (initMessages "mytask") []
     ⟨[], [], [], []⟩ (by decide : ¬ searchJson = "") rfl rfl⟩

/-! ## C10 — the most-recent-artifact pointer policy -/

/-- C10: in every completed run, the `LAST_REPORT` pointer is updated in
the explicit-Finish path only when artifact creation succeeded (and then
to the created path), while the fallback path updates it to the new path
unconditionally, even when creation failed; every update happens under
`LAST_REPORT_LOCK`. -/
theorem last_report_pointer_policy (env : Env) (task : String) (m : Nat)
    (h : (run_agent_stream env task m).exn = none) :
    ∃ c : PdfCall,
      (run_agent_stream env task m).pdfCalls = [c]
      ∧ (c.kind = PathKind.finish → c.result = none →
          (run_agent_stream env task m).lastUpdates = [])
      ∧ (∀ p, c.result = some p →
          (run_agent_stream env task m).lastUpdates = [⟨some p, true⟩])
      ∧ (c.kind = PathKind.fallback →
          (run_agent_stream env task m).lastUpdates = [⟨some c.path, true⟩])
      ∧ (∀ u ∈ (run_agent_stream env task m).lastUpdates, u.underLock = true) := by
  obtain ⟨c, h1, h2, _, _, _, _, h7, _, _⟩ :=
    runLoop_master env task m 20 (initMessages task) [] ⟨[], [], [], []⟩ h
  have hlu : (run_agent_stream env task m).lastUpdates = updatesOf c := by
    show (runLoop env task m 20 (initMessages task) [] ⟨[], [], [], []⟩).lastUpdates
      = updatesOf c
    rw [h2]
    rfl
  refine ⟨c, by simpa using h1, ?_, ?_, ?_, ?_⟩
  · intro hk hres
    rw [hlu]
    simp [updatesOf, hk, hres]
  · intro p hres
    rw [hlu]
    cases hk : c.kind with
    | finish => simp [updatesOf, hk, hres]
    | fallback =>
      have hpp := (h7 p hres).1
      simp [updatesOf, hk, hpp]
  · intro hk
    rw [hlu]
    simp [updatesOf, hk]
  · intro u hu
    rw [hlu] at hu
    cases hk : c.kind with
    | finish =>
      cases hres : c.result with
      | none => simp [updatesOf, hk, hres] at hu
      | some p =>
        simp [updatesOf, hk, hres] at hu
        rw [hu]
    | fallback =>
      simp [updatesOf, hk] at hu
      rw [hu]

/-- C10 witness: the theorem in the world whose run finishes explicitly
with a failing render backend (so the pointer is not updated). -/
theorem last_report_pointer_policy_witness :
    (run_agent_stream envFinishFail "t" 3).exn = none
    ∧ ∃ c : PdfCall,
        (run_agent_stream envFinishFail "t" 3).pdfCalls = [c]
        ∧ (c.kind = PathKind.finish → c.result = none →
            (run_agent_stream envFinishFail "t" 3).lastUpdates = [])
        ∧ (∀ p, c.result = some p →
            (run_agent_stream envFinishFail "t" 3).lastUpdates = [⟨some p, true⟩])
        ∧ (c.kind = PathKind.fallback →
            (run_agent_stream envFinishFail "t" 3).lastUpdates = [⟨some c.path, true⟩])
        ∧ (∀ u ∈ (run_agent_stream envFinishFail "t" 3).lastUpdates, u.underLock = true) :=
  ⟨rfl, last_report_pointer_policy envFinishFail "t" 3 rfl⟩
